import Mathlib

/-!
Verification of the `ngx-agora` wrapper service (`NgxAgoraService`) against its
natural-language specification.

The wrapper delegates everything to an opaque provider (the Agora RTC SDK).
We embed the wrapper's own logic shallowly:

* `MediaDeviceInfo`, `StreamSpec`, `ClientConfig`, `AgoraConfig` are the data
  records the service manipulates.
* The provider is a record `AgoraRTCProvider` of abstract behaviours:
  the compatibility check result, the device list its `getDevices` delivers to
  the callback (`none` models an enumeration failure, i.e. the callback never
  fires), and the `createClient` / `createStream` constructors as arbitrary
  functions.
* `ServiceState` is the service's mutable field state (`client`,
  `audioDevices`, `videoDevices`, `config`); `none` in a device cache models a
  TypeScript field that was never assigned (`undefined`).
* JavaScript truthiness on the optional string fields of a `StreamSpec` is made
  explicit: `undefined` and the empty string are both falsy
  (`falsyOptStr`), and `a || b` on strings is `jsStrOr`.
* `createStream` mutates the caller's `spec` object in place before handing the
  very same object to the provider.  In the embedding the function returns the
  final value of that single shared record as the first component of its
  result; it is simultaneously the argument of the provider call and the value
  the caller's record holds after the call.
-/

/-- The kind of an enumerated media device (the TypeScript union
`'audioinput' | 'audiooutput' | 'videoinput'`). -/
inductive MediaDeviceKind where
  | audioinput
  | audiooutput
  | videoinput
deriving Repr, DecidableEq

/-- A device descriptor as returned by device enumeration. -/
structure MediaDeviceInfo where
  deviceId : String
  kind : MediaDeviceKind
  label : String
deriving Repr, DecidableEq

/-- A stream specification (`StreamSpec`).  `microphoneId` and `cameraId` are
optional string fields: `none` models an absent (`undefined`) field. -/
@[ext]
structure StreamSpec where
  audio : Bool
  video : Bool
  microphoneId : Option String := none
  cameraId : Option String := none
deriving Repr, DecidableEq

/-- Client configuration handed to `createClient`; opaque to the wrapper. -/
structure ClientConfig where
  mode : String
  codec : String
deriving Repr, DecidableEq

/-- The service configuration injected at construction (`AgoraConfig`). -/
structure AgoraConfig where
  AppID : String
deriving Repr, DecidableEq

/-- An opaque client object produced by the provider's `createClient`. -/
structure ClientObj where
  id : Nat
deriving Repr, DecidableEq

/-- An opaque stream object produced by the provider's `createStream`. -/
structure StreamObj where
  id : Nat
deriving Repr, DecidableEq

/-- An opaque provider error value. -/
structure AgoraError where
  msg : String
deriving Repr, DecidableEq

/-- The behaviour of the opaque provider (`AgoraRTC`).  `getDevices = none`
models an enumeration failure: the callback handed to `getDevices` is never
invoked. -/
structure AgoraRTCProvider where
  checkSystemRequirements : Bool
  getDevices : Option (List MediaDeviceInfo)
  createClient : ClientConfig → ClientObj
  createStream : StreamSpec → Except AgoraError StreamObj

/-- The field state of `NgxAgoraService`.  `audioDevices` / `videoDevices`
are `none` while the TypeScript fields are still `undefined`. -/
structure ServiceState where
  client : Option ClientObj
  audioDevices : Option (List MediaDeviceInfo)
  videoDevices : Option (List MediaDeviceInfo)
  config : AgoraConfig
deriving Repr, DecidableEq

/-- JavaScript truthiness of an optional string: `undefined` and `""` are
falsy, every other string is truthy. -/
def falsyOptStr : Option String → Bool
  | none => true
  | some s => s.isEmpty

/-- JavaScript `a || b` on an optional string `a` and a string `b`. -/
def jsStrOr (a : Option String) (b : String) : String :=
  match a with
  | some s => if s.isEmpty then b else s
  | none => b

/-- The audio half of the partition inside `collectDevices`:
`devices.filter(device => device.kind === 'audioinput' && device.deviceId !== 'default')`. -/
def audioDeviceFilter (devices : List MediaDeviceInfo) : List MediaDeviceInfo :=
  devices.filter fun device =>
    device.kind == MediaDeviceKind.audioinput && device.deviceId != "default"

/-- The video half of the partition inside `collectDevices`:
`devices.filter(device => device.kind === 'videoinput' && device.deviceId !== 'default')`. -/
def videoDeviceFilter (devices : List MediaDeviceInfo) : List MediaDeviceInfo :=
  devices.filter fun device =>
    device.kind == MediaDeviceKind.videoinput && device.deviceId != "default"

/-- The callback `collectDevices` hands to `AgoraRTC.getDevices`: partitions
the enumerated devices and assigns both caches. -/
def collectDevicesCallback (st : ServiceState) (devices : List MediaDeviceInfo) :
    ServiceState :=
  let audioDevices := audioDeviceFilter devices
  let videoDevices := videoDeviceFilter devices
  { st with audioDevices := some audioDevices, videoDevices := some videoDevices }

/-- `NgxAgoraService.collectDevices`: calls the provider's `getDevices` with
`collectDevicesCallback`.  On enumeration failure the callback never runs and
the state is untouched. -/
def collectDevices (rtc : AgoraRTCProvider) (st : ServiceState) : ServiceState :=
  match rtc.getDevices with
  | some devices => collectDevicesCallback st devices
  | none => st

/-- `NgxAgoraService.checkSystemRequirements`: delegates to the provider. -/
def checkSystemRequirements (rtc : AgoraRTCProvider) : Bool :=
  rtc.checkSystemRequirements

/-- Observable effects of running the constructor: whether a device-enumeration
call was made, and what was logged. -/
structure ConstructorEffects where
  enumerationCalled : Bool
  logs : List String
deriving Repr, DecidableEq

/-- The field state a fresh service starts from: every field `undefined`
except the injected `config`. -/
def freshState (config : AgoraConfig) : ServiceState :=
  { client := none, audioDevices := none, videoDevices := none, config := config }

/-- The `NgxAgoraService` constructor:
`if (!this.checkSystemRequirements()) { log error } else { this.collectDevices(); }`.
It is a total function — construction never throws. -/
def serviceInit (rtc : AgoraRTCProvider) (config : AgoraConfig) :
    ServiceState × ConstructorEffects :=
  let st := freshState config
  if !(checkSystemRequirements rtc) then
    (st, { enumerationCalled := false,
           logs := ["Web RTC is not supported in this browser"] })
  else
    (collectDevices rtc st, { enumerationCalled := true, logs := [] })

/-- The record of the `client.init(...)` call made inside `createClient`:
which client object was initialized, with which app id, and whether the
optional success/failure callbacks were supplied. -/
structure InitCall where
  target : ClientObj
  appId : String
  onSuccessProvided : Bool
  onFailureProvided : Bool
deriving Repr, DecidableEq

/-- `NgxAgoraService.createClient`:
`this.client = this.AgoraRTC.createClient(config); this.client.init(this.config.AppID);`.
Returns the new field state together with the recorded `init` call. -/
def createClient (rtc : AgoraRTCProvider) (st : ServiceState) (config : ClientConfig) :
    ServiceState × InitCall :=
  let client := rtc.createClient config
  ({ st with client := some client },
   { target := client, appId := st.config.AppID,
     onSuccessProvided := false, onFailureProvided := false })

/-- The first `if` block of `createStream`:
`if (!spec.microphoneId && this.audioDevices && this.audioDevices.length) {
   spec.microphoneId = this.audioDevices[0].deviceId; }`.
The cache guard is truthy exactly when the field holds a non-empty list. -/
def fillDefaultMic (st : ServiceState) (spec : StreamSpec) : StreamSpec :=
  match st.audioDevices with
  | some (device :: _) =>
      if falsyOptStr spec.microphoneId then
        let defaultMic := device.deviceId
        { spec with microphoneId := some defaultMic }
      else spec
  | _ => spec

/-- The second `if` block of `createStream`:
`if (!spec.cameraId && this.videoDevices && this.videoDevices.length) {
   spec.cameraId = spec.cameraId || defaultCamera; }`. -/
def fillDefaultCamera (st : ServiceState) (spec : StreamSpec) : StreamSpec :=
  match st.videoDevices with
  | some (device :: _) =>
      if falsyOptStr spec.cameraId then
        let defaultCamera := device.deviceId
        { spec with cameraId := some (jsStrOr spec.cameraId defaultCamera) }
      else spec
  | _ => spec

/-- The full default-filling performed on the caller's `spec` object by
`createStream` before it is handed to the provider. -/
def fillDefaults (st : ServiceState) (spec : StreamSpec) : StreamSpec :=
  fillDefaultCamera st (fillDefaultMic st spec)

/-- `NgxAgoraService.createStream`: fills defaults on the caller's `spec`
object, then returns `this.AgoraRTC.createStream(spec)`.  The first component
is the final value of the single shared `spec` record (both the provider's
argument and, by reference semantics, the caller's record after the call);
the second is the provider's result, returned unchanged. -/
def createStream (rtc : AgoraRTCProvider) (st : ServiceState) (spec : StreamSpec) :
    StreamSpec × Except AgoraError StreamObj :=
  let spec := fillDefaults st spec
  (spec, rtc.createStream spec)

/-! ### Concrete fixtures used by counterexamples and witnesses -/

/-- A concrete audio-input device. -/
def devA : MediaDeviceInfo :=
  { deviceId := "a", kind := MediaDeviceKind.audioinput, label := "mic-a" }

/-- A concrete video-input device. -/
def devB : MediaDeviceInfo :=
  { deviceId := "b", kind := MediaDeviceKind.videoinput, label := "cam-b" }

/-- The platform's synthetic default-alias audio descriptor. -/
def devDefault : MediaDeviceInfo :=
  { deviceId := "default", kind := MediaDeviceKind.audioinput, label := "os-default" }

/-- A service state whose caches hold the scenario devices `[devA]` / `[devB]`. -/
def stAB : ServiceState :=
  { client := none, audioDevices := some [devA], videoDevices := some [devB],
    config := { AppID := "app" } }

/-- A provider whose `createStream` always succeeds. -/
def rtcOk : AgoraRTCProvider :=
  { checkSystemRequirements := true,
    getDevices := some [devA, devDefault, devB],
    createClient := fun _ => { id := 1 },
    createStream := fun _ => Except.ok { id := 7 } }

/-- A provider whose enumeration fails and whose `createStream` fails. -/
def rtcBroken : AgoraRTCProvider :=
  { checkSystemRequirements := true,
    getDevices := none,
    createClient := fun _ => { id := 0 },
    createStream := fun _ => Except.error { msg := "boom" } }

/-- A provider whose compatibility check fails. -/
def rtcIncompatible : AgoraRTCProvider :=
  { checkSystemRequirements := false,
    getDevices := some [devA, devB],
    createClient := fun _ => { id := 2 },
    createStream := fun _ => Except.ok { id := 9 } }

/-! ### Helper lemmas about the default-filling steps -/

/-- The value `fillDefaultMic` leaves in the `microphoneId` field, as a
function of the cache and the old field value. -/
def micDefault (st : ServiceState) (m : Option String) : Option String :=
  match st.audioDevices with
  | some (device :: _) => if falsyOptStr m then some device.deviceId else m
  | _ => m

/-- The value `fillDefaultCamera` leaves in the `cameraId` field. -/
def camDefault (st : ServiceState) (c : Option String) : Option String :=
  match st.videoDevices with
  | some (device :: _) =>
      if falsyOptStr c then some (jsStrOr c device.deviceId) else c
  | _ => c

theorem fillDefaultMic_audio (st : ServiceState) (spec : StreamSpec) :
    (fillDefaultMic st spec).audio = spec.audio := by
  unfold fillDefaultMic
  split
  · split <;> rfl
  · rfl

theorem fillDefaultMic_video (st : ServiceState) (spec : StreamSpec) :
    (fillDefaultMic st spec).video = spec.video := by
  unfold fillDefaultMic
  split
  · split <;> rfl
  · rfl

theorem fillDefaultMic_cameraId (st : ServiceState) (spec : StreamSpec) :
    (fillDefaultMic st spec).cameraId = spec.cameraId := by
  unfold fillDefaultMic
  split
  · split <;> rfl
  · rfl

theorem fillDefaultMic_microphoneId (st : ServiceState) (spec : StreamSpec) :
    (fillDefaultMic st spec).microphoneId = micDefault st spec.microphoneId := by
  unfold fillDefaultMic micDefault
  split
  · split <;> rfl
  · rfl

theorem fillDefaultCamera_audio (st : ServiceState) (spec : StreamSpec) :
    (fillDefaultCamera st spec).audio = spec.audio := by
  unfold fillDefaultCamera
  split
  · split <;> rfl
  · rfl

theorem fillDefaultCamera_video (st : ServiceState) (spec : StreamSpec) :
    (fillDefaultCamera st spec).video = spec.video := by
  unfold fillDefaultCamera
  split
  · split <;> rfl
  · rfl

theorem fillDefaultCamera_microphoneId (st : ServiceState) (spec : StreamSpec) :
    (fillDefaultCamera st spec).microphoneId = spec.microphoneId := by
  unfold fillDefaultCamera
  split
  · split <;> rfl
  · rfl

theorem fillDefaultCamera_cameraId (st : ServiceState) (spec : StreamSpec) :
    (fillDefaultCamera st spec).cameraId = camDefault st spec.cameraId := by
  unfold fillDefaultCamera camDefault
  split
  · split <;> rfl
  · rfl

theorem fillDefaults_audio (st : ServiceState) (spec : StreamSpec) :
    (fillDefaults st spec).audio = spec.audio := by
  unfold fillDefaults
  rw [fillDefaultCamera_audio, fillDefaultMic_audio]

theorem fillDefaults_video (st : ServiceState) (spec : StreamSpec) :
    (fillDefaults st spec).video = spec.video := by
  unfold fillDefaults
  rw [fillDefaultCamera_video, fillDefaultMic_video]

theorem fillDefaults_microphoneId (st : ServiceState) (spec : StreamSpec) :
    (fillDefaults st spec).microphoneId = micDefault st spec.microphoneId := by
  unfold fillDefaults
  rw [fillDefaultCamera_microphoneId, fillDefaultMic_microphoneId]

theorem fillDefaults_cameraId (st : ServiceState) (spec : StreamSpec) :
    (fillDefaults st spec).cameraId = camDefault st spec.cameraId := by
  unfold fillDefaults
  rw [fillDefaultCamera_cameraId, fillDefaultMic_cameraId]

theorem micDefault_idem (st : ServiceState) (m : Option String) :
    micDefault st (micDefault st m) = micDefault st m := by
  unfold micDefault
  rcases h : st.audioDevices with _ | (_ | ⟨d, rest⟩)
  · rfl
  · rfl
  · by_cases hm : falsyOptStr m
    · simp [hm]
    · simp [hm]

theorem camDefault_idem (st : ServiceState) (c : Option String) :
    camDefault st (camDefault st c) = camDefault st c := by
  unfold camDefault
  rcases h : st.videoDevices with _ | (_ | ⟨d, rest⟩)
  · rfl
  · rfl
  · dsimp only
    by_cases hc : falsyOptStr c
    · have hj : jsStrOr c d.deviceId = d.deviceId := by
        rcases c with _ | s
        · rfl
        · simp only [falsyOptStr] at hc
          simp [jsStrOr, hc]
      rw [hj]
      simp only [hc, if_true]
      simp [falsyOptStr, jsStrOr]
    · simp [hc]

theorem fillDefaults_idem (st : ServiceState) (spec : StreamSpec) :
    fillDefaults st (fillDefaults st spec) = fillDefaults st spec := by
  apply StreamSpec.ext
  · rw [fillDefaults_audio, fillDefaults_audio]
  · rw [fillDefaults_video, fillDefaults_video]
  · rw [fillDefaults_microphoneId, fillDefaults_microphoneId, micDefault_idem]
  · rw [fillDefaults_cameraId, fillDefaults_cameraId, camDefault_idem]

theorem fillDefaultMic_noCache (st : ServiceState) (spec : StreamSpec)
    (h : st.audioDevices = none ∨ st.audioDevices = some []) :
    fillDefaultMic st spec = spec := by
  unfold fillDefaultMic
  rcases h with h | h <;> rw [h]

theorem fillDefaultCamera_noCache (st : ServiceState) (spec : StreamSpec)
    (h : st.videoDevices = none ∨ st.videoDevices = some []) :
    fillDefaultCamera st spec = spec := by
  unfold fillDefaultCamera
  rcases h with h | h <;> rw [h]

theorem fillDefaultMic_notFalsy (st : ServiceState) (spec : StreamSpec)
    (h : falsyOptStr spec.microphoneId = false) :
    fillDefaultMic st spec = spec := by
  unfold fillDefaultMic
  split
  · simp [h]
  · rfl

theorem fillDefaultCamera_notFalsy (st : ServiceState) (spec : StreamSpec)
    (h : falsyOptStr spec.cameraId = false) :
    fillDefaultCamera st spec = spec := by
  unfold fillDefaultCamera
  split
  · simp [h]
  · rfl

/-- A filter with a fixed predicate is idempotent. -/
theorem filter_self_idem {α : Type} (p : α → Bool) (l : List α) :
    (l.filter p).filter p = l.filter p := by
  induction l with
  | nil => rfl
  | cons x xs ih =>
      by_cases h : p x <;> simp [List.filter_cons, h, ih]

/-- The spec's description of the audio cache, as direct recursion: exactly the
enumerated descriptors whose kind is audioinput and whose identifier differs
from the sentinel "default", in enumeration order. -/
def selectedAudioInputs : List MediaDeviceInfo → List MediaDeviceInfo
  | [] => []
  | device :: rest =>
      if device.kind = MediaDeviceKind.audioinput ∧ device.deviceId ≠ "default" then
        device :: selectedAudioInputs rest
      else selectedAudioInputs rest

/-- The spec's description of the video cache, as direct recursion. -/
def selectedVideoInputs : List MediaDeviceInfo → List MediaDeviceInfo
  | [] => []
  | device :: rest =>
      if device.kind = MediaDeviceKind.videoinput ∧ device.deviceId ≠ "default" then
        device :: selectedVideoInputs rest
      else selectedVideoInputs rest

theorem audioDeviceFilter_eq_selected (devices : List MediaDeviceInfo) :
    audioDeviceFilter devices = selectedAudioInputs devices := by
  induction devices with
  | nil => rfl
  | cons d rest ih =>
      unfold audioDeviceFilter at ih ⊢
      unfold selectedAudioInputs
      rw [List.filter_cons]
      by_cases h : d.kind = MediaDeviceKind.audioinput ∧ d.deviceId ≠ "default"
      · simp [h.1, h.2, ih, h]
      · simp only [h, if_false]
        have hb : (d.kind == MediaDeviceKind.audioinput && d.deviceId != "default") = false := by
          rcases Decidable.not_and_iff_or_not.mp h with h1 | h1
          · simp [h1]
          · have h2 : d.deviceId = "default" := not_not.mp h1
            simp [h2]
        simp [hb, ih]

theorem videoDeviceFilter_eq_selected (devices : List MediaDeviceInfo) :
    videoDeviceFilter devices = selectedVideoInputs devices := by
  induction devices with
  | nil => rfl
  | cons d rest ih =>
      unfold videoDeviceFilter at ih ⊢
      unfold selectedVideoInputs
      rw [List.filter_cons]
      by_cases h : d.kind = MediaDeviceKind.videoinput ∧ d.deviceId ≠ "default"
      · simp [h.1, h.2, ih, h]
      · simp only [h, if_false]
        have hb : (d.kind == MediaDeviceKind.videoinput && d.deviceId != "default") = false := by
          rcases Decidable.not_and_iff_or_not.mp h with h1 | h1
          · simp [h1]
          · have h2 : d.deviceId = "default" := not_not.mp h1
            simp [h2]
        simp [hb, ih]

/-- The constructor stores the injected configuration unchanged, on both
branches and regardless of enumeration outcome. -/
theorem serviceInit_config (rtc : AgoraRTCProvider) (acfg : AgoraConfig) :
    ((serviceInit rtc acfg).1).config = acfg := by
  unfold serviceInit collectDevices collectDevicesCallback freshState
  split
  · rfl
  · rcases rtc.getDevices with _ | devices <;> rfl

/-! ### Claim theorems -/

/-- C1 (counterexample): the claim that a microphone field the caller already
set is never replaced fails on the code.  A caller-supplied
`microphoneId = ""` is a set field, yet the JavaScript falsiness test
`!spec.microphoneId` treats it as unset and `createStream` replaces it with
the first cached audio device's identifier. -/
theorem createStream_replaces_set_empty_mic :
    ({ audio := true, video := true, microphoneId := some "",
       cameraId := some "c" } : StreamSpec).microphoneId = some "" ∧
    ((createStream rtcOk stAB
        { audio := true, video := true, microphoneId := some "",
          cameraId := some "c" }).1).microphoneId = some "a" := by
  constructor
  · rfl
  · rfl

/-- C1 (amended): the specification handed to the provider carries the first
cached audio device's identifier whenever the caller's microphone field is
unset or the empty string (JavaScript-falsy) and the cached audio-input list
is non-empty, and symmetrically for the camera field and the cached
video-input list; a microphone or camera field the caller set to a non-empty
string is never replaced by a cached value. -/
theorem createStream_default_selection (rtc : AgoraRTCProvider) (st : ServiceState)
    (spec : StreamSpec) :
    (∀ d rest, st.audioDevices = some (d :: rest) →
        falsyOptStr spec.microphoneId = true →
        ((createStream rtc st spec).1).microphoneId = some d.deviceId) ∧
    (∀ m, spec.microphoneId = some m → m ≠ "" →
        ((createStream rtc st spec).1).microphoneId = some m) ∧
    (∀ d rest, st.videoDevices = some (d :: rest) →
        falsyOptStr spec.cameraId = true →
        ((createStream rtc st spec).1).cameraId = some d.deviceId) ∧
    (∀ c, spec.cameraId = some c → c ≠ "" →
        ((createStream rtc st spec).1).cameraId = some c) := by
  refine ⟨?_, ?_, ?_, ?_⟩
  · intro d rest h hf
    show (fillDefaults st spec).microphoneId = some d.deviceId
    rw [fillDefaults_microphoneId]
    unfold micDefault
    rw [h]
    simp [hf]
  · intro m hm hne
    show (fillDefaults st spec).microphoneId = some m
    rw [fillDefaults_microphoneId]
    have hf : falsyOptStr (some m) = false := by
      simp only [falsyOptStr]
      exact Bool.eq_false_iff.mpr fun hh => hne ((String.isEmpty_iff m).mp hh)
    unfold micDefault
    rw [hm]
    rcases h2 : st.audioDevices with _ | (_ | ⟨d, r⟩) <;> simp [hf]
  · intro d rest h hf
    show (fillDefaults st spec).cameraId = some d.deviceId
    rw [fillDefaults_cameraId]
    unfold camDefault
    rw [h]
    have hj : jsStrOr spec.cameraId d.deviceId = d.deviceId := by
      rcases hc : spec.cameraId with _ | s
      · rfl
      · rw [hc] at hf
        simp only [falsyOptStr] at hf
        simp [jsStrOr, hf]
    simp [hf, hj]
  · intro c hc hne
    show (fillDefaults st spec).cameraId = some c
    rw [fillDefaults_cameraId]
    have hf : falsyOptStr (some c) = false := by
      simp only [falsyOptStr]
      exact Bool.eq_false_iff.mpr fun hh => hne ((String.isEmpty_iff c).mp hh)
    unfold camDefault
    rw [hc]
    rcases h2 : st.videoDevices with _ | (_ | ⟨d, r⟩) <;> simp [hf]

/-- C1 witness: the spec scenario — `{audio:true, video:true}` with caches
`[devA]` / `[devB]` yields `microphoneId = "a"` and `cameraId = "b"`. -/
theorem createStream_default_selection_witness :
    ((createStream rtcOk stAB { audio := true, video := true }).1).microphoneId =
      some "a" ∧
    ((createStream rtcOk stAB { audio := true, video := true }).1).cameraId =
      some "b" :=
  ⟨(createStream_default_selection rtcOk stAB
      { audio := true, video := true }).1 devA [] rfl rfl,
   (createStream_default_selection rtcOk stAB
      { audio := true, video := true }).2.2.1 devB [] rfl rfl⟩

/-- C2: the cached audio-input list is exactly the enumerated descriptors of
kind audioinput whose identifier differs from "default", in enumeration
order, and symmetrically for video; on the scenario input
`[{id:"a",kind:audioinput}, {id:"default",kind:audioinput}, {id:"b",kind:videoinput}]`
the audio cache is `[devA]` and the video cache is `[devB]`. -/
theorem collectDevices_partitions (st : ServiceState) (devices : List MediaDeviceInfo) :
    (collectDevicesCallback st devices).audioDevices =
      some (selectedAudioInputs devices) ∧
    (collectDevicesCallback st devices).videoDevices =
      some (selectedVideoInputs devices) ∧
    (collectDevicesCallback st [devA, devDefault, devB]).audioDevices =
      some [devA] ∧
    (collectDevicesCallback st [devA, devDefault, devB]).videoDevices =
      some [devB] := by
  refine ⟨?_, ?_, ?_, ?_⟩
  · show some (audioDeviceFilter devices) = _
    rw [audioDeviceFilter_eq_selected]
  · show some (videoDeviceFilter devices) = _
    rw [videoDeviceFilter_eq_selected]
  · rfl
  · rfl

/-- C3: with both device caches empty or unset (as after an enumeration
failure), `createStream` hands the caller's specification to the provider
with every field unchanged and returns the provider's result; it raises no
error of its own (the embedding is a total function). -/
theorem createStream_empty_caches (rtc : AgoraRTCProvider) (st : ServiceState)
    (spec : StreamSpec)
    (ha : st.audioDevices = none ∨ st.audioDevices = some [])
    (hv : st.videoDevices = none ∨ st.videoDevices = some []) :
    createStream rtc st spec = (spec, rtc.createStream spec) := by
  have h1 : fillDefaults st spec = spec := by
    unfold fillDefaults
    rw [fillDefaultMic_noCache st spec ha, fillDefaultCamera_noCache st spec hv]
  show (fillDefaults st spec, rtc.createStream (fillDefaults st spec)) = _
  rw [h1]

/-- C3 witness: a freshly constructed service whose enumeration failed leaves
both caches unset, and `createStream` forwards the specification unchanged,
returning the provider's (failing) result. -/
theorem createStream_empty_caches_witness :
    createStream rtcBroken (freshState { AppID := "app" })
        { audio := true, video := false } =
      ({ audio := true, video := false }, Except.error { msg := "boom" }) :=
  createStream_empty_caches rtcBroken (freshState { AppID := "app" })
    { audio := true, video := false } (Or.inl rfl) (Or.inl rfl)

/-- C4: the consumer-facing session object stored by `createClient` is the
provider's client object itself, so every operation applied to it — with any
arguments — coincides with the same operation applied to the provider's
client object, and every callback or event delivered on the provider's client
object is delivered on the consumer's session object: forwarding is the
structural identity. -/
theorem createClient_forwarding_identity (rtc : AgoraRTCProvider)
    (st : ServiceState) (cfg : ClientConfig) {α β : Type}
    (op : ClientObj → α → β) (a : α) :
    ((createClient rtc st cfg).1).client = some (rtc.createClient cfg) ∧
    (((createClient rtc st cfg).1).client).map (fun c => op c a) =
      some (op (rtc.createClient cfg) a) :=
  ⟨rfl, rfl⟩

/-- C5: if the compatibility check returns false at construction, no
device-enumeration call is made, both device caches remain unset, and the
failure is reported via a log message only; construction is a total function
and throws nothing. -/
theorem serviceInit_incompatible (rtc : AgoraRTCProvider) (acfg : AgoraConfig)
    (h : checkSystemRequirements rtc = false) :
    (serviceInit rtc acfg).2.enumerationCalled = false ∧
    ((serviceInit rtc acfg).1).audioDevices = none ∧
    ((serviceInit rtc acfg).1).videoDevices = none ∧
    (serviceInit rtc acfg).2.logs = ["Web RTC is not supported in this browser"] := by
  unfold serviceInit
  rw [h]
  simp [freshState]

/-- C5 witness: a concrete provider failing the compatibility check. -/
theorem serviceInit_incompatible_witness :
    (serviceInit rtcIncompatible { AppID := "app" }).2.enumerationCalled = false ∧
    ((serviceInit rtcIncompatible { AppID := "app" }).1).audioDevices = none ∧
    ((serviceInit rtcIncompatible { AppID := "app" }).1).videoDevices = none ∧
    (serviceInit rtcIncompatible { AppID := "app" }).2.logs =
      ["Web RTC is not supported in this browser"] :=
  serviceInit_incompatible rtcIncompatible { AppID := "app" } rfl

/-- C6: `createStream` returns exactly the provider's result for the
default-filled specification; an error from the provider's constructor
reaches the caller unchanged, as does a success — the wrapper neither catches
nor transforms the result. -/
theorem createStream_delegates (rtc : AgoraRTCProvider) (st : ServiceState)
    (spec : StreamSpec) :
    (createStream rtc st spec).2 =
      rtc.createStream ((createStream rtc st spec).1) ∧
    (∀ e, rtc.createStream ((createStream rtc st spec).1) = Except.error e →
        (createStream rtc st spec).2 = Except.error e) ∧
    (∀ s, rtc.createStream ((createStream rtc st spec).1) = Except.ok s →
        (createStream rtc st spec).2 = Except.ok s) := by
  refine ⟨rfl, ?_, ?_⟩
  · intro e he
    exact he
  · intro s hs
    exact hs

/-- C6 witness: a provider whose stream constructor fails propagates its error
value to the caller unchanged. -/
theorem createStream_delegates_witness :
    (createStream rtcBroken stAB { audio := true, video := true }).2 =
      Except.error { msg := "boom" } :=
  (createStream_delegates rtcBroken stAB { audio := true, video := true }).2.1
    { msg := "boom" } rfl

/-- A fully-specified stream specification. -/
def specFull : StreamSpec :=
  { audio := true, video := true, microphoneId := some "m1", cameraId := some "c1" }

/-- C7: for a fully-specified specification (microphone and camera both set),
calling `createStream` a second time on the record produced by the first call
hands the provider the same specification as the first call: the
default-filling is idempotent. -/
theorem createStream_idempotent_fully_specified (rtc : AgoraRTCProvider)
    (st : ServiceState) (spec : StreamSpec)
    (hm : ∃ m, spec.microphoneId = some m) (hc : ∃ c, spec.cameraId = some c) :
    (createStream rtc st ((createStream rtc st spec).1)).1 =
      (createStream rtc st spec).1 :=
  fillDefaults_idem st spec

/-- C7 witness: idempotence at a concrete fully-specified input. -/
theorem createStream_idempotent_fully_specified_witness :
    (createStream rtcOk stAB ((createStream rtcOk stAB specFull).1)).1 =
      (createStream rtcOk stAB specFull).1 :=
  createStream_idempotent_fully_specified rtcOk stAB specFull ⟨"m1", rfl⟩ ⟨"c1", rfl⟩

/-- C8: device partitioning is idempotent — running the enumeration-callback
partition twice on the same input produces the same state as running it once,
and each filter applied to its own output leaves it unchanged. -/
theorem devicePartition_idempotent (st : ServiceState)
    (devices : List MediaDeviceInfo) :
    collectDevicesCallback (collectDevicesCallback st devices) devices =
      collectDevicesCallback st devices ∧
    audioDeviceFilter (audioDeviceFilter devices) = audioDeviceFilter devices ∧
    videoDeviceFilter (videoDeviceFilter devices) = videoDeviceFilter devices := by
  refine ⟨rfl, ?_, ?_⟩
  · exact filter_self_idem _ devices
  · exact filter_self_idem _ devices

/-- C9: `createStream` mutates the caller-supplied specification record in
place (the embedding returns the final value of that single shared record):
after a call in which a default microphone or camera was selected the
caller's record carries that deviceId, and when no default applies the
caller's record is left unchanged. -/
theorem createStream_mutates_caller_spec (rtc : AgoraRTCProvider)
    (st : ServiceState) (spec : StreamSpec) :
    (∀ d rest, st.audioDevices = some (d :: rest) →
        falsyOptStr spec.microphoneId = true →
        ((createStream rtc st spec).1).microphoneId = some d.deviceId) ∧
    (∀ d rest, st.videoDevices = some (d :: rest) →
        falsyOptStr spec.cameraId = true →
        ((createStream rtc st spec).1).cameraId = some d.deviceId) ∧
    ((falsyOptStr spec.microphoneId = false ∨ st.audioDevices = none ∨
        st.audioDevices = some []) →
     (falsyOptStr spec.cameraId = false ∨ st.videoDevices = none ∨
        st.videoDevices = some []) →
      (createStream rtc st spec).1 = spec) := by
  refine ⟨?_, ?_, ?_⟩
  · intro d rest h hf
    show (fillDefaults st spec).microphoneId = some d.deviceId
    rw [fillDefaults_microphoneId]
    unfold micDefault
    rw [h]
    simp [hf]
  · intro d rest h hf
    show (fillDefaults st spec).cameraId = some d.deviceId
    rw [fillDefaults_cameraId]
    unfold camDefault
    rw [h]
    have hj : jsStrOr spec.cameraId d.deviceId = d.deviceId := by
      rcases hco : spec.cameraId with _ | s
      · rfl
      · rw [hco] at hf
        simp only [falsyOptStr] at hf
        simp [jsStrOr, hf]
    simp [hf, hj]
  · intro hm hc
    show fillDefaults st spec = spec
    unfold fillDefaults
    have h1 : fillDefaultMic st spec = spec := by
      rcases hm with h | h | h
      · exact fillDefaultMic_notFalsy st spec h
      · exact fillDefaultMic_noCache st spec (Or.inl h)
      · exact fillDefaultMic_noCache st spec (Or.inr h)
    rw [h1]
    rcases hc with h | h | h
    · exact fillDefaultCamera_notFalsy st spec h
    · exact fillDefaultCamera_noCache st spec (Or.inl h)
    · exact fillDefaultCamera_noCache st spec (Or.inr h)

/-- C9 witness: with a populated audio cache the caller's record carries the
default deviceId after the call; with unset caches the record is unchanged. -/
theorem createStream_mutates_caller_spec_witness :
    ((createStream rtcOk stAB { audio := false, video := true }).1).microphoneId =
      some "a" ∧
    (createStream rtcOk (freshState { AppID := "app" })
        { audio := false, video := true }).1 =
      { audio := false, video := true } :=
  ⟨(createStream_mutates_caller_spec rtcOk stAB
      { audio := false, video := true }).1 devA [] rfl rfl,
   (createStream_mutates_caller_spec rtcOk (freshState { AppID := "app" })
      { audio := false, video := true }).2.2
     (Or.inr (Or.inl rfl)) (Or.inr (Or.inl rfl))⟩

/-- C10: `createClient` stores the provider-created client object in the
service's `client` field and records an `init` call on that very object with
the AppID from the construction-time configuration and no success or failure
callback; a subsequent `createClient` call replaces the stored client. -/
theorem createClient_stores_and_inits (rtc : AgoraRTCProvider)
    (st : ServiceState) (acfg : AgoraConfig) (cfg cfg2 : ClientConfig) :
    ((createClient rtc st cfg).1).client = some (rtc.createClient cfg) ∧
    (createClient rtc st cfg).2 =
      { target := rtc.createClient cfg, appId := st.config.AppID,
        onSuccessProvided := false, onFailureProvided := false } ∧
    ((createClient rtc ((serviceInit rtc acfg).1) cfg).2).appId = acfg.AppID ∧
    ((createClient rtc ((createClient rtc st cfg).1) cfg2).1).client =
      some (rtc.createClient cfg2) := by
  refine ⟨rfl, rfl, ?_, rfl⟩
  show ((serviceInit rtc acfg).1).config.AppID = acfg.AppID
  rw [serviceInit_config]
